import Mathlib

/-!
Shallow embedding of the CoRamTix status monitor (src/main.py).

Timestamps and accumulated seconds (Python floats from time.time())
are modelled as integers; response times and the uptime percentage,
where the only real division of the program happens, as rationals.
The sites table is an association list keyed by site name, and the
tracker state of one site is a record holding the sites row, the
status_history rows and the incidents rows for that site.  Each
embedded function mirrors one Python function of the source.
-/

namespace StatusMonitor

/-- The persisted status strings stored in the sites table:
Unknown (schema default), Online, Down. -/
inductive Status where
  | Unknown : Status
  | Online : Status
  | Down : Status
  deriving DecidableEq

/-- The classification a probe result carries: check_site only ever
produces the strings Online and Down. -/
inductive ProbeStatus where
  | Online : ProbeStatus
  | Down : ProbeStatus
  deriving DecidableEq

/-- The persisted status string a probe classification is stored as. -/
def ProbeStatus.toStatus : ProbeStatus → Status
  | ProbeStatus.Online => Status.Online
  | ProbeStatus.Down => Status.Down

/-- One row of the sites table (columns the monitor reads or writes). -/
structure Site where
  url : String
  status : Status
  last_change : ℤ
  last_checked : Option ℤ
  total_uptime : ℤ
  total_downtime : ℤ
  response_time : Option ℚ
  status_code : Option ℤ
  deriving DecidableEq

/-- The result dictionary built by StatusMonitor.check_site. -/
structure ProbeRes where
  status : ProbeStatus
  response_time : Option ℚ
  status_code : Option ℤ
  error : Option String
  deriving DecidableEq

/-- One row of the status_history table. -/
structure HistoryRecord where
  status : ProbeStatus
  response_time : Option ℚ
  status_code : Option ℤ
  error_message : Option String
  checked_at : ℤ
  deriving DecidableEq

/-- One row of the incidents table (columns the monitor reads or writes). -/
structure Incident where
  start_time : ℤ
  end_time : Option ℤ
  duration : Option ℤ
  description : String
  resolved : Bool
  deriving DecidableEq

/-- The persisted state the tracker keeps for one site: its sites row,
its status_history rows and its incidents rows. -/
structure MonState where
  site : Site
  history : List HistoryRecord
  incidents : List Incident
  deriving DecidableEq

/-- A fresh sites row as inserted by INSERT OR REPLACE in
_initialize_sites: only name, url, last_change and updated_at are given,
every other column takes its schema default. -/
def freshSite (url : String) (now : ℤ) : Site :=
  { url := url
    status := Status.Unknown
    last_change := now
    last_checked := none
    total_uptime := 0
    total_downtime := 0
    response_time := none
    status_code := none }

/-- The state of a site just after it is first seeded. -/
def initialState (url : String) (t0 : ℤ) : MonState :=
  { site := freshSite url t0, history := [], incidents := [] }

/-- The outcome of the HTTP GET issued by check_site: a response with a
status code, a timeout, an aiohttp client error, or any other
exception.  The wall-clock latency of the attempt comes with each. -/
inductive ProbeOutcome where
  | httpResponse : ℤ → ℚ → ProbeOutcome
  | timeoutErr : ℚ → ProbeOutcome
  | clientErr : String → ℚ → ProbeOutcome
  | unexpectedErr : String → ℚ → ProbeOutcome
  deriving DecidableEq

/-- StatusMonitor.check_site: the result starts as Down with empty
fields and is updated according to the outcome.  Every exception class
is caught, so the function is total over the outcome taxonomy. -/
def check_site (expected_status : ℤ) (o : ProbeOutcome) : ProbeRes :=
  match o with
  | ProbeOutcome.httpResponse code rt =>
      { status :=
          if expected_status = code ∨ (200 ≤ code ∧ code < 300) then
            ProbeStatus.Online
          else
            ProbeStatus.Down
        response_time := some rt
        status_code := some code
        error := none }
  | ProbeOutcome.timeoutErr rt =>
      { status := ProbeStatus.Down
        response_time := some rt
        status_code := none
        error := some "Request timeout" }
  | ProbeOutcome.clientErr msg rt =>
      { status := ProbeStatus.Down
        response_time := some rt
        status_code := none
        error := some ("Client error: " ++ msg) }
  | ProbeOutcome.unexpectedErr msg rt =>
      { status := ProbeStatus.Down
        response_time := some rt
        status_code := none
        error := some ("Unexpected error: " ++ msg) }

/-- The incident rows after the UPDATE run on a Down to Online change in
_handle_status_change: every row of the site with resolved = FALSE gets
end_time = now, duration = now - last_change of the stale site row, and
resolved = TRUE. -/
def resolveIncidents (incidents : List Incident) (now lastChange : ℤ) :
    List Incident :=
  incidents.map fun i =>
    if i.resolved then i
    else { i with end_time := some now
                  duration := some (now - lastChange)
                  resolved := true }

/-- StatusMonitor._handle_status_change, called with the stale sites row
read before the UPDATE of _update_site_status.  Creates an incident only
on Online to Down, resolves the unresolved incidents only on Down to
Online. -/
def handle_status_change (st : MonState) (old_site : Site) (r : ProbeRes)
    (now : ℤ) : MonState :=
  if r.status = ProbeStatus.Down ∧ old_site.status = Status.Online then
    { st with incidents := st.incidents ++
        [{ start_time := now
           end_time := none
           duration := none
           description := "Site went down: " ++ r.error.getD "None"
           resolved := false }] }
  else if r.status = ProbeStatus.Online ∧ old_site.status = Status.Down then
    { st with incidents :=
        resolveIncidents st.incidents now old_site.last_change }
  else st

/-- StatusMonitor._update_site_status: accrue the elapsed time onto the
previous status, write the new row (last_change := now every cycle),
append a history row, and on a status change call incident handling. -/
def update_site_status (st : MonState) (r : ProbeRes) (now : ℤ) : MonState :=
  let site := st.site
  let previous_status := site.status
  let time_since_change := now - site.last_change
  let new_uptime :=
    if previous_status = Status.Online then site.total_uptime + time_since_change
    else site.total_uptime
  let new_downtime :=
    if previous_status = Status.Down then site.total_downtime + time_since_change
    else site.total_downtime
  let site2 : Site :=
    { url := site.url
      status := r.status.toStatus
      last_change := now
      last_checked := some now
      total_uptime := new_uptime
      total_downtime := new_downtime
      response_time := r.response_time
      status_code := r.status_code }
  let hist := st.history ++
    [{ status := r.status
       response_time := r.response_time
       status_code := r.status_code
       error_message := r.error
       checked_at := now }]
  let st2 : MonState := { site := site2, history := hist, incidents := st.incidents }
  if previous_status ≠ r.status.toStatus then
    handle_status_change st2 site r now
  else st2

/-- A whole run: apply _update_site_status for each probe in order; each
probe is a pair of its processing time and the check_site result. -/
def runMonitor (st : MonState) (probes : List (ℤ × ProbeRes)) : MonState :=
  probes.foldl (fun s p => update_site_status s p.2 p.1) st

/-- Number of unresolved incident rows of the site. -/
def unresolvedCount (st : MonState) : ℕ :=
  (st.incidents.filter fun i => !i.resolved).length

/-! ### Site registry (the sites table as a whole) -/

/-- The sites table: rows keyed by the UNIQUE name column. -/
def SitesTable := List (String × Site)

/-- INSERT OR REPLACE INTO sites (name, url, last_change, updated_at):
on a name conflict SQLite deletes the old row and inserts a fresh one,
so every column not listed falls back to its schema default. -/
def insert_or_replace (table : SitesTable) (name url : String) (now : ℤ) :
    SitesTable :=
  (table.filter fun p => p.1 ≠ name) ++ [(name, freshSite url now)]

/-- StatusMonitor._initialize_sites: one INSERT OR REPLACE per
configured site (name, url pairs), all at the same seed instant. -/
def init_sites (table : SitesTable) (cfg : List (String × String)) (now : ℤ) :
    SitesTable :=
  cfg.foldl (fun t sc => insert_or_replace t sc.1 sc.2 now) table

/-- Row lookup by site name. -/
def lookupSite (table : SitesTable) (name : String) : Option Site :=
  (table.find? fun p => p.1 = name).map Prod.snd

/-- The name column values of the table. -/
def tableNames (table : SitesTable) : List String :=
  table.map Prod.fst

/-! ### Query service (api_status, api_site_history) -/

/-- api_status: live uptime shown for a site, extrapolating the current
interval onto the current status. -/
def display_uptime (s : Site) (now : ℤ) : ℤ :=
  s.total_uptime + (if s.status = Status.Online then now - s.last_change else 0)

/-- api_status: live downtime shown for a site. -/
def display_downtime (s : Site) (now : ℤ) : ℤ :=
  s.total_downtime + (if s.status = Status.Down then now - s.last_change else 0)

/-- api_status: uptime_percent of one site, 100.0 unless the live total
is positive. -/
def uptime_percent (s : Site) (now : ℤ) : ℚ :=
  if 0 < display_uptime s now + display_downtime s now then
    (display_uptime s now : ℚ) /
      ((display_uptime s now + display_downtime s now : ℤ) : ℚ) * 100
  else 100

/-- api_status: overall_status starts as operational and is degraded as
soon as some row has a status other than Online; an empty table keeps
operational. -/
def overall_status (table : SitesTable) : String :=
  if table.all (fun p => p.2.status = Status.Online) then "operational"
  else "degraded"

/-- Insert a history row into a list kept in descending checked_at
order. -/
def insertDesc (r : HistoryRecord) : List HistoryRecord → List HistoryRecord
  | [] => [r]
  | x :: xs =>
      if x.checked_at ≤ r.checked_at then r :: x :: xs
      else x :: insertDesc r xs

/-- Sort history rows by checked_at, newest first (the ORDER BY
checked_at DESC of the history query). -/
def sortDesc : List HistoryRecord → List HistoryRecord
  | [] => []
  | x :: xs => insertDesc x (sortDesc xs)

/-- api_site_history: rows of the site from the last 24 hours
(checked_at > now - 86400), ORDER BY checked_at DESC, LIMIT 100. -/
def api_site_history (history : List HistoryRecord) (now : ℤ) :
    List HistoryRecord :=
  (sortDesc (history.filter fun r => now - 86400 < r.checked_at)).take 100

/-! ### Configuration loading (ConfigManager) -/

/-- One entry of the sites section as parsed from YAML: the name and
url keys may each be absent. -/
structure RawSite where
  name : Option String
  url : Option String
  deriving DecidableEq

/-- What reading the configuration file can yield: an unreadable or
unparsable file, or a parsed document whose sites section may be absent
(none) or present as a list. -/
inductive LoadedYaml where
  | failed : LoadedYaml
  | parsed : Option (List RawSite) → LoadedYaml
  deriving DecidableEq

/-- ConfigManager._validate_config: the sites section must be present
and every entry must carry both name and url. -/
def validate_ok : Option (List RawSite) → Bool
  | none => false
  | some sites => sites.all fun s => s.name.isSome && s.url.isSome

/-- The sites of ConfigManager._get_default_config, used as the
fallback whenever loading or validation fails. -/
def default_sites : List (String × String) :=
  [("Google", "https://www.google.com"),
   ("GitHub", "https://www.github.com"),
   ("Stack Overflow", "https://stackoverflow.com")]

/-- Extract the (name, url) pairs of a validated sites section. -/
def extract_sites (sites : List RawSite) : List (String × String) :=
  sites.map fun s => (s.name.getD "", s.url.getD "")

/-- ConfigManager._load_config: any exception while reading, parsing or
validating is caught and the default configuration is returned, so the
call never fails. -/
def load_config (y : LoadedYaml) : List (String × String) :=
  match y with
  | LoadedYaml.failed => default_sites
  | LoadedYaml.parsed sites =>
      if validate_ok sites then extract_sites (sites.getD []) else default_sites

/-! ### Helper lemmas about the tracker -/

/-- Incident handling never touches the sites row. -/
lemma handle_site_eq (st : MonState) (old : Site) (r : ProbeRes) (now : ℤ) :
    (handle_status_change st old r now).site = st.site := by
  unfold handle_status_change
  split
  · rfl
  · split <;> rfl

/-- The sites row written by one _update_site_status call. -/
lemma update_site_proj (st : MonState) (r : ProbeRes) (now : ℤ) :
    (update_site_status st r now).site =
      { url := st.site.url
        status := r.status.toStatus
        last_change := now
        last_checked := some now
        total_uptime := st.site.total_uptime +
          (if st.site.status = Status.Online then now - st.site.last_change else 0)
        total_downtime := st.site.total_downtime +
          (if st.site.status = Status.Down then now - st.site.last_change else 0)
        response_time := r.response_time
        status_code := r.status_code } := by
  have hh : ∀ st2 : MonState,
      (if st.site.status ≠ r.status.toStatus then
          handle_status_change st2 st.site r now else st2).site = st2.site := by
    intro st2
    split
    · exact handle_site_eq st2 st.site r now
    · rfl
  simp only [update_site_status]
  rw [hh]
  cases h : st.site.status <;> simp [h]

/-- The incident rows after one _update_site_status call, by case on the
old persisted status and the probe classification. -/
lemma update_incidents_char (st : MonState) (r : ProbeRes) (now : ℤ) :
    (update_site_status st r now).incidents =
      if st.site.status = Status.Online ∧ r.status = ProbeStatus.Down then
        st.incidents ++
          [{ start_time := now
             end_time := none
             duration := none
             description := "Site went down: " ++ r.error.getD "None"
             resolved := false }]
      else if st.site.status = Status.Down ∧ r.status = ProbeStatus.Online then
        resolveIncidents st.incidents now st.site.last_change
      else st.incidents := by
  cases hs : st.site.status <;> cases hr : r.status <;>
    simp [update_site_status, handle_status_change, ProbeStatus.toStatus, hs, hr]

/-- Every incident row produced by the resolving UPDATE is resolved. -/
lemma resolve_all_resolved (l : List Incident) (now lc : ℤ) :
    ∀ i ∈ resolveIncidents l now lc, i.resolved = true := by
  intro i hi
  unfold resolveIncidents at hi
  rcases List.mem_map.1 hi with ⟨j, _, rfl⟩
  by_cases h : j.resolved <;> simp [h]

/-- After the resolving UPDATE no unresolved row remains. -/
lemma length_filter_resolve (l : List Incident) (now lc : ℤ) :
    ((resolveIncidents l now lc).filter fun i => !i.resolved).length = 0 := by
  rw [List.length_eq_zero, List.filter_eq_nil_iff]
  intro a ha
  simp [resolve_all_resolved l now lc a ha]

/-- The invariant the incident bookkeeping maintains for one site: an
unresolved incident exists only while the persisted status is Down, and
there is at most one. -/
def IncInv (st : MonState) : Prop :=
  (st.site.status ≠ Status.Down → unresolvedCount st = 0) ∧ unresolvedCount st ≤ 1

/-- One probe update preserves the incident invariant. -/
lemma incInv_step (st : MonState) (r : ProbeRes) (now : ℤ) (h : IncInv st) :
    IncInv (update_site_status st r now) := by
  obtain ⟨h0, h1⟩ := h
  have hsite := update_site_proj st r now
  have hinc := update_incidents_char st r now
  cases hs : st.site.status <;> cases hr : r.status <;>
    constructor <;>
      simp_all [IncInv, unresolvedCount, ProbeStatus.toStatus,
        List.filter_append, length_filter_resolve]

/-- Folding any probe list preserves the incident invariant. -/
lemma incInv_run (probes : List (ℤ × ProbeRes)) :
    ∀ st : MonState, IncInv st → IncInv (runMonitor st probes) := by
  induction probes with
  | nil => intro st h; exact h
  | cons p rest ih =>
      intro st h
      exact ih (update_site_status st p.2 p.1) (incInv_step st p.2 p.1 h)

/-- A freshly seeded site satisfies the incident invariant. -/
lemma incInv_initial (url : String) (t0 : ℤ) : IncInv (initialState url t0) := by
  constructor <;> simp [initialState, unresolvedCount]

/-- The accounting the spec asks for, written from its words: walking
the probe list, each inter-cycle elapsed time is charged to the status
active at the start of the interval, and never to Unknown.  This is the
comparison value for the accrual claim, not part of the embedding. -/
def specChargedSum : Status → ℤ → List (ℤ × ProbeRes) → ℤ
  | _, _, [] => 0
  | s, anchor, (t, r) :: rest =>
      (if s = Status.Online ∨ s = Status.Down then t - anchor else 0) +
        specChargedSum r.status.toStatus t rest

/-- Unfolding one probe of a run. -/
lemma runMonitor_cons (st : MonState) (p : ℤ × ProbeRes)
    (ps : List (ℤ × ProbeRes)) :
    runMonitor st (p :: ps) = runMonitor (update_site_status st p.2 p.1) ps := rfl

/-- One update moves the sum of the two counters by the elapsed time
exactly when the old status was Online or Down. -/
lemma sum_step (st : MonState) (r : ProbeRes) (now : ℤ) :
    (update_site_status st r now).site.total_uptime +
        (update_site_status st r now).site.total_downtime =
      st.site.total_uptime + st.site.total_downtime +
        (if st.site.status = Status.Online ∨ st.site.status = Status.Down then
          now - st.site.last_change else 0) := by
  rw [update_site_proj]
  cases h : st.site.status <;> simp [h] <;> ring

/-- After a whole run the counter sum equals the spec accounting. -/
lemma run_sum (probes : List (ℤ × ProbeRes)) :
    ∀ st : MonState,
      (runMonitor st probes).site.total_uptime +
          (runMonitor st probes).site.total_downtime =
        st.site.total_uptime + st.site.total_downtime +
          specChargedSum st.site.status st.site.last_change probes := by
  induction probes with
  | nil => intro st; simp [runMonitor, specChargedSum]
  | cons p rest ih =>
      intro st
      obtain ⟨t, r⟩ := p
      rw [runMonitor_cons, ih, update_site_proj]
      simp only [specChargedSum]
      cases h : st.site.status <;> simp [h] <;> ring

/-! ### Helper lemmas about the registry -/

/-- After an INSERT OR REPLACE, looking the name up yields the fresh row. -/
lemma lookup_insert_or_replace (table : SitesTable) (name url : String)
    (now : ℤ) :
    lookupSite (insert_or_replace table name url now) name =
      some (freshSite url now) := by
  unfold lookupSite insert_or_replace
  rw [List.find?_append]
  have hnone : (table.filter fun p => p.1 ≠ name).find?
      (fun p => p.1 = name) = none := by
    rw [List.find?_eq_none]
    intro p hp
    have := (List.mem_filter.1 hp).2
    simp at this ⊢
    exact this
  rw [hnone]
  simp

/-- An INSERT OR REPLACE keeps the name column duplicate-free. -/
lemma nodup_insert_or_replace (table : SitesTable) (name url : String)
    (now : ℤ) (h : (tableNames table).Nodup) :
    (tableNames (insert_or_replace table name url now)).Nodup := by
  unfold tableNames insert_or_replace
  rw [List.map_append, List.nodup_append]
  refine ⟨?_, by simp, ?_⟩
  · exact ((List.filter_sublist table).map Prod.fst).nodup h
  · intro a ha
    rcases List.mem_map.1 ha with ⟨p, hp, rfl⟩
    have := (List.mem_filter.1 hp).2
    simp at this ⊢
    exact fun hx => absurd hx this

/-- Seeding any configuration keeps the name column duplicate-free. -/
lemma nodup_init_sites (cfg : List (String × String)) :
    ∀ table : SitesTable, ∀ now : ℤ, (tableNames table).Nodup →
      (tableNames (init_sites table cfg now)).Nodup := by
  induction cfg with
  | nil => intro table now h; exact h
  | cons sc rest ih =>
      intro table now h
      exact ih (insert_or_replace table sc.1 sc.2 now) now
        (nodup_insert_or_replace table sc.1 sc.2 now h)

/-! ### Helper lemmas about the history query -/

/-- Membership in an ordered insert. -/
lemma mem_insertDesc (r a : HistoryRecord) (l : List HistoryRecord) :
    a ∈ insertDesc r l ↔ a = r ∨ a ∈ l := by
  induction l with
  | nil => simp [insertDesc]
  | cons x xs ih =>
      unfold insertDesc
      split
      · simp
      · simp [ih]
        tauto

/-- Ordered insert preserves descending order. -/
lemma sorted_insertDesc (r : HistoryRecord) (l : List HistoryRecord)
    (h : l.Pairwise fun a b => b.checked_at ≤ a.checked_at) :
    (insertDesc r l).Pairwise fun a b => b.checked_at ≤ a.checked_at := by
  induction l with
  | nil => simp [insertDesc]
  | cons x xs ih =>
      rw [List.pairwise_cons] at h
      unfold insertDesc
      split
      · rename_i hle
        rw [List.pairwise_cons]
        refine ⟨?_, by rw [List.pairwise_cons]; exact h⟩
        intro b hb
        rcases List.mem_cons.1 hb with rfl | hb
        · exact hle
        · exact le_trans (h.1 b hb) hle
      · rename_i hgt
        rw [List.pairwise_cons]
        refine ⟨?_, ih h.2⟩
        intro b hb
        rcases (mem_insertDesc r b xs).1 hb with rfl | hb
        · exact le_of_not_le hgt
        · exact h.1 b hb

/-- The sort of the history query is descending in checked_at. -/
lemma sorted_sortDesc (l : List HistoryRecord) :
    (sortDesc l).Pairwise fun a b => b.checked_at ≤ a.checked_at := by
  induction l with
  | nil => simp [sortDesc]
  | cons x xs ih => exact sorted_insertDesc x (sortDesc xs) ih

/-- The sort keeps exactly the rows it was given. -/
lemma mem_sortDesc (a : HistoryRecord) (l : List HistoryRecord) :
    a ∈ sortDesc l ↔ a ∈ l := by
  induction l with
  | nil => simp [sortDesc]
  | cons x xs ih =>
      unfold sortDesc
      rw [mem_insertDesc]
      simp [ih]

/-! ### Concrete probe results and sites used at concrete inputs -/

/-- A probe result classified Online (HTTP 200 in one second). -/
def probeOnlineEx : ProbeRes :=
  { status := ProbeStatus.Online
    response_time := some 1
    status_code := some 200
    error := none }

/-- A probe result classified Down (connection refused). -/
def probeDownEx : ProbeRes :=
  { status := ProbeStatus.Down
    response_time := some 1
    status_code := none
    error := some "Client error: connection refused" }

/-- A run that goes Online at 0, Down at 10 and 20, Online again at 30. -/
def c2run : MonState :=
  runMonitor (initialState "u" 0)
    [(0, probeOnlineEx), (10, probeDownEx), (20, probeDownEx), (30, probeOnlineEx)]

/-! ### Claim theorems -/

/-- C1, counterexample: two consecutive Online probes at times 10 and
20.  The second probe leaves the classified status equal to the
persisted status, yet last_change moves from 10 to 20, so the update
does not leave last_change unchanged when the status is unchanged. -/
theorem c1_counterexample :
    (update_site_status (initialState "u" 0) probeOnlineEx 10).site.status
        = Status.Online ∧
    (update_site_status (initialState "u" 0) probeOnlineEx 10).site.last_change
        = 10 ∧
    (update_site_status
        (update_site_status (initialState "u" 0) probeOnlineEx 10)
        probeOnlineEx 20).site.status = Status.Online ∧
    (update_site_status
        (update_site_status (initialState "u" 0) probeOnlineEx 10)
        probeOnlineEx 20).site.last_change = 20 ∧
    (20 : ℤ) ≠ 10 := by
  decide

/-- C1, amended: _update_site_status writes last_change = now on every
probe applied to a site, whether or not the new status differs from the
persisted status (in particular it is set to now when they differ). -/
theorem c1_last_change_always_reset (st : MonState) (r : ProbeRes) (now : ℤ) :
    (update_site_status st r now).site.last_change = now := by
  rw [update_site_proj]

/-- C2, counterexample: in the run Online at 0, Down at 10 and 20,
Online at 30, the single incident is created at 10 and resolved at 30,
but its recorded duration is 10 (now minus the previous probe time, the
stale last_change) while end_time minus start_time is 30 - 10 = 20. -/
theorem c2_counterexample :
    c2run.incidents.map (fun i => (i.start_time, i.end_time, i.duration, i.resolved))
        = [((10 : ℤ), some (30 : ℤ), some (10 : ℤ), true)] ∧
    some ((30 : ℤ) - 10) ≠ some (10 : ℤ) := by
  decide

/-- C2, amended: a Down to Online probe resolves every unresolved
incident of the site (of which at most one ever exists on any run from
a freshly seeded site), setting end_time = now, resolved = true, and
duration = now minus the last_change value persisted before the
transition (the previous probe time), not end_time minus the incident
start_time. -/
theorem c2_resolution :
    (∀ (url : String) (lc : ℤ) (lck : Option ℤ) (tu td : ℤ)
        (rt0 : Option ℚ) (sc0 : Option ℤ) (hist : List HistoryRecord)
        (inc : List Incident) (rrt : Option ℚ) (rsc : Option ℤ)
        (rerr : Option String) (now : ℤ),
      (update_site_status
          ⟨⟨url, Status.Down, lc, lck, tu, td, rt0, sc0⟩, hist, inc⟩
          ⟨ProbeStatus.Online, rrt, rsc, rerr⟩ now).incidents =
        inc.map fun i =>
          if i.resolved then i
          else { i with end_time := some now
                        duration := some (now - lc)
                        resolved := true }) ∧
    (∀ (url : String) (t0 : ℤ) (probes : List (ℤ × ProbeRes)),
      unresolvedCount (runMonitor (initialState url t0) probes) ≤ 1) := by
  constructor
  · intro url lc lck tu td rt0 sc0 hist inc rrt rsc rerr now
    rw [update_incidents_char]
    simp [resolveIncidents]
  · intro url t0 probes
    exact (incInv_run probes _ (incInv_initial url t0)).2

/-- C3, counterexample: the first probe of a freshly seeded site is a
transition Unknown to Down, yet no incident row is created (incident
creation requires the old status to be Online). -/
theorem c3_counterexample :
    (initialState "u" 0).site.status = Status.Unknown ∧
    (update_site_status (initialState "u" 0) probeDownEx 5).site.status
        = Status.Down ∧
    (update_site_status (initialState "u" 0) probeDownEx 5).incidents.length
        = 0 ∧
    (0 : ℕ) ≠ 1 := by
  decide

/-- C3, amended: an Online to Down probe creates exactly one new
unresolved incident with start_time = now, a transition Unknown to Down
creates none, and on every run from a freshly seeded site at most one
unresolved incident exists at any time. -/
theorem c3_incident_creation :
    (∀ (url : String) (lc : ℤ) (lck : Option ℤ) (tu td : ℤ)
        (rt0 : Option ℚ) (sc0 : Option ℤ) (hist : List HistoryRecord)
        (inc : List Incident) (rrt : Option ℚ) (rsc : Option ℤ)
        (rerr : Option String) (now : ℤ),
      (update_site_status
          ⟨⟨url, Status.Online, lc, lck, tu, td, rt0, sc0⟩, hist, inc⟩
          ⟨ProbeStatus.Down, rrt, rsc, rerr⟩ now).incidents =
        inc ++ [{ start_time := now
                  end_time := none
                  duration := none
                  description := "Site went down: " ++ rerr.getD "None"
                  resolved := false }]) ∧
    (∀ (url : String) (lc : ℤ) (lck : Option ℤ) (tu td : ℤ)
        (rt0 : Option ℚ) (sc0 : Option ℤ) (hist : List HistoryRecord)
        (inc : List Incident) (rrt : Option ℚ) (rsc : Option ℤ)
        (rerr : Option String) (now : ℤ),
      (update_site_status
          ⟨⟨url, Status.Unknown, lc, lck, tu, td, rt0, sc0⟩, hist, inc⟩
          ⟨ProbeStatus.Down, rrt, rsc, rerr⟩ now).incidents = inc) ∧
    (∀ (url : String) (t0 : ℤ) (probes : List (ℤ × ProbeRes)),
      unresolvedCount (runMonitor (initialState url t0) probes) ≤ 1) := by
  refine ⟨?_, ?_, ?_⟩
  · intro url lc lck tu td rt0 sc0 hist inc rrt rsc rerr now
    rw [update_incidents_char]
    simp
  · intro url lc lck tu td rt0 sc0 hist inc rrt rsc rerr now
    rw [update_incidents_char]
    simp
  · intro url t0 probes
    exact (incInv_run probes _ (incInv_initial url t0)).2

/-- C4, counterexample: an HTTP 302 response against the default
expected status 200 lies in [200, 400) but check_site classifies it
Down, because the code accepts only the expected status or [200, 300). -/
theorem c4_counterexample :
    (check_site 200 (ProbeOutcome.httpResponse 302 1)).status
        = ProbeStatus.Down ∧
    ((200 : ℤ) ≤ 302 ∧ (302 : ℤ) < 400) ∧
    ProbeStatus.Down ≠ ProbeStatus.Online := by
  decide

/-- C4, amended: an HTTP response is classified Online exactly when its
status code equals the expected status or lies in [200, 300); otherwise
it is classified Down; the actual status code is recorded in the result
in both cases. -/
theorem c4_classification (e code : ℤ) (rt : ℚ) :
    ((check_site e (ProbeOutcome.httpResponse code rt)).status
        = ProbeStatus.Online ↔ (e = code ∨ (200 ≤ code ∧ code < 300))) ∧
    (check_site e (ProbeOutcome.httpResponse code rt)).status_code
        = some code := by
  constructor
  · by_cases h : e = code ∨ (200 ≤ code ∧ code < 300)
    · simp [check_site, h]
    · simp [check_site, h]
  · rfl

/-- A sites row with accrued state: Online since 5, with 100 seconds of
recorded uptime and 7 of downtime. -/
def seasonedSite : Site :=
  { url := "u"
    status := Status.Online
    last_change := 5
    last_checked := some 5
    total_uptime := 100
    total_downtime := 7
    response_time := none
    status_code := none }

/-- A one-row sites table holding the seasoned site under name A. -/
def c5table : SitesTable := [("A", seasonedSite)]

/-- C5, counterexample: re-seeding a table that already holds site A
with the same (name, url) configuration replaces the row via INSERT OR
REPLACE: the status falls back to Unknown, the accrued totals to 0 and
last_change to the seed time, so the existing counters are reset. -/
theorem c5_counterexample :
    lookupSite (init_sites c5table [("A", "u")] 50) "A"
        = some (freshSite "u" 50) ∧
    seasonedSite.status = Status.Online ∧
    (freshSite "u" 50).status = Status.Unknown ∧
    seasonedSite.total_uptime = 100 ∧
    (freshSite "u" 50).total_uptime = 0 ∧
    (100 : ℤ) ≠ 0 := by
  decide

/-- C5, amended: re-seeding never duplicates Site rows (the name column
stays duplicate-free), but it is not idempotent on row contents: every
configured site ends up with a fresh row whose status is Unknown, whose
totals are 0 and whose last_change is the seed time. -/
theorem c5_reseed :
    (∀ (table : SitesTable) (n u : String) (now : ℤ),
      lookupSite (init_sites table [(n, u)] now) n = some (freshSite u now)) ∧
    (∀ (table : SitesTable) (cfg : List (String × String)) (now : ℤ),
      (tableNames table).Nodup → (tableNames (init_sites table cfg now)).Nodup) := by
  constructor
  · intro table n u now
    exact lookup_insert_or_replace table n u now
  · intro table cfg now h
    exact nodup_init_sites cfg table now h

/-- C5 witness: the amended statement applied to the concrete one-row
table and a two-site configuration. -/
theorem c5_witness :
    (tableNames c5table).Nodup ∧
    (tableNames (init_sites c5table [("A", "u"), ("B", "v")] 50)).Nodup :=
  ⟨by decide, c5_reseed.2 c5table [("A", "u"), ("B", "v")] 50 (by decide)⟩

/-- C6: each probe accrues the elapsed time now - last_change into
total_uptime when the previously persisted status was Online, into
total_downtime when it was Down, and into neither when it was Unknown;
consequently after any run total_uptime + total_downtime has grown by
exactly the sum of the inter-cycle elapsed times charged to the status
active at the start of each interval (never to Unknown). -/
theorem c6_accrual :
    (∀ (st : MonState) (r : ProbeRes) (now : ℤ),
      (update_site_status st r now).site.total_uptime =
        st.site.total_uptime +
          (if st.site.status = Status.Online then now - st.site.last_change
           else 0) ∧
      (update_site_status st r now).site.total_downtime =
        st.site.total_downtime +
          (if st.site.status = Status.Down then now - st.site.last_change
           else 0)) ∧
    (∀ (st : MonState) (probes : List (ℤ × ProbeRes)),
      (runMonitor st probes).site.total_uptime +
          (runMonitor st probes).site.total_downtime =
        st.site.total_uptime + st.site.total_downtime +
          specChargedSum st.site.status st.site.last_change probes) := by
  constructor
  · intro st r now
    refine ⟨?_, ?_⟩ <;> rw [update_site_proj]
  · intro st probes
    exact run_sum probes st

/-- C7: for a site with nonnegative persisted totals and a last_change
not in the future, uptime_percent equals 100 when the live display
total is zero and display_uptime / (display_uptime + display_downtime)
* 100 otherwise, and always lies in [0, 100]; a never-checked site
(fresh row: status Unknown, zero totals) reports 100. -/
theorem c7_uptime_percent :
    (∀ (s : Site) (now : ℤ), 0 ≤ s.total_uptime → 0 ≤ s.total_downtime →
        s.last_change ≤ now →
      (display_uptime s now + display_downtime s now = 0 →
        uptime_percent s now = 100) ∧
      (display_uptime s now + display_downtime s now ≠ 0 →
        uptime_percent s now =
          (display_uptime s now : ℚ) /
            ((display_uptime s now : ℚ) + (display_downtime s now : ℚ)) * 100) ∧
      0 ≤ uptime_percent s now ∧ uptime_percent s now ≤ 100) ∧
    (∀ (url : String) (lc now : ℤ),
      uptime_percent (freshSite url lc) now = 100) := by
  constructor
  · intro s now h1 h2 h3
    have hdu : 0 ≤ display_uptime s now := by
      unfold display_uptime
      split <;> omega
    have hdd : 0 ≤ display_downtime s now := by
      unfold display_downtime
      split <;> omega
    refine ⟨?_, ?_, ?_, ?_⟩
    · intro h0
      unfold uptime_percent
      rw [h0]
      norm_num
    · intro hne
      have hpos : 0 < display_uptime s now + display_downtime s now := by omega
      unfold uptime_percent
      rw [if_pos hpos]
      push_cast
      ring
    · unfold uptime_percent
      split
      · rename_i hpos
        have hposQ :
            (0 : ℚ) < ((display_uptime s now + display_downtime s now : ℤ) : ℚ) := by
          exact_mod_cast hpos
        apply mul_nonneg _ (by norm_num)
        exact div_nonneg (by exact_mod_cast hdu) (le_of_lt hposQ)
      · norm_num
    · unfold uptime_percent
      split
      · rename_i hpos
        have hposQ :
            (0 : ℚ) < ((display_uptime s now + display_downtime s now : ℤ) : ℚ) := by
          exact_mod_cast hpos
        have hleQ : (display_uptime s now : ℚ) ≤
            ((display_uptime s now + display_downtime s now : ℤ) : ℚ) := by
          exact_mod_cast (by omega :
            display_uptime s now ≤ display_uptime s now + display_downtime s now)
        calc (display_uptime s now : ℚ) /
              ((display_uptime s now + display_downtime s now : ℤ) : ℚ) * 100
            ≤ 1 * 100 :=
              mul_le_mul_of_nonneg_right ((div_le_one hposQ).2 hleQ) (by norm_num)
          _ = 100 := one_mul _
      · norm_num
  · intro url lc now
    simp [uptime_percent, display_uptime, display_downtime, freshSite]

/-- The Scenario B sites row of the spec: Down since 30 after 30
seconds of uptime. -/
def siteB : Site :=
  { url := "u"
    status := Status.Down
    last_change := 30
    last_checked := some 30
    total_uptime := 30
    total_downtime := 0
    response_time := none
    status_code := none }

/-- C7 witness: the theorem applied to the Scenario B row at time 50,
with all three hypotheses discharged on the concrete values. -/
theorem c7_witness :
    (0 : ℤ) ≤ siteB.total_uptime ∧ (0 : ℤ) ≤ siteB.total_downtime ∧
    siteB.last_change ≤ (50 : ℤ) ∧
    0 ≤ uptime_percent siteB 50 ∧ uptime_percent siteB 50 ≤ 100 :=
  ⟨by decide, by decide, by decide,
   (c7_uptime_percent.1 siteB 50 (by decide) (by decide) (by decide)).2.2.1,
   (c7_uptime_percent.1 siteB 50 (by decide) (by decide) (by decide)).2.2.2⟩

/-- C8, counterexample: a timed-out probe is classified Down with a
null status code, but the recorded error string is the literal
Request timeout, not the string timeout the claim names. -/
theorem c8_counterexample :
    (check_site 200 (ProbeOutcome.timeoutErr 10)).status = ProbeStatus.Down ∧
    (check_site 200 (ProbeOutcome.timeoutErr 10)).status_code = none ∧
    (check_site 200 (ProbeOutcome.timeoutErr 10)).error
        = some "Request timeout" ∧
    some "Request timeout" ≠ some "timeout" := by
  decide

/-- C8, amended: check_site is total over the outcome taxonomy (every
exception class is caught), and every timeout, client or unexpected
error resolves to a Down classification with a null status code; a
timeout carries the error string Request timeout. -/
theorem c8_error_classification :
    (∀ (e : ℤ) (rt : ℚ),
      check_site e (ProbeOutcome.timeoutErr rt) =
        { status := ProbeStatus.Down
          response_time := some rt
          status_code := none
          error := some "Request timeout" }) ∧
    (∀ (e : ℤ) (msg : String) (rt : ℚ),
      check_site e (ProbeOutcome.clientErr msg rt) =
        { status := ProbeStatus.Down
          response_time := some rt
          status_code := none
          error := some ("Client error: " ++ msg) }) ∧
    (∀ (e : ℤ) (msg : String) (rt : ℚ),
      check_site e (ProbeOutcome.unexpectedErr msg rt) =
        { status := ProbeStatus.Down
          response_time := some rt
          status_code := none
          error := some ("Unexpected error: " ++ msg) }) :=
  ⟨fun _ _ => rfl, fun _ _ _ => rfl, fun _ _ _ => rfl⟩

/-- A minimal history row checked at time t. -/
def histRec (t : ℤ) : HistoryRecord :=
  { status := ProbeStatus.Online
    response_time := none
    status_code := none
    error_message := none
    checked_at := t }

/-- C9, counterexample: two history rows checked at 10 and 20, queried
at time 100, come back as [20, 10] (ORDER BY checked_at DESC), which is
newest-first, not the oldest-first order the claim states. -/
theorem c9_counterexample :
    (api_site_history [histRec 10, histRec 20] 100).map HistoryRecord.checked_at
        = [20, 10] ∧
    ([20, 10] : List ℤ) ≠ [10, 20] := by
  decide

/-- C9, amended: the per-site history query returns at most 100 rows,
all from the last 24 hours, ordered newest-first (descending
checked_at). -/
theorem c9_history_query (history : List HistoryRecord) (now : ℤ) :
    (api_site_history history now).length ≤ 100 ∧
    (api_site_history history now).Pairwise
        (fun a b => b.checked_at ≤ a.checked_at) ∧
    ∀ r ∈ api_site_history history now, now - 86400 < r.checked_at := by
  refine ⟨?_, ?_, ?_⟩
  · unfold api_site_history
    rw [List.length_take]
    exact min_le_left _ _
  · exact List.Pairwise.sublist (List.take_sublist _ _) (sorted_sortDesc _)
  · intro r hr
    unfold api_site_history at hr
    have hr2 := List.take_subset _ _ hr
    have hr3 := (mem_sortDesc _ _).1 hr2
    have hr4 := (List.mem_filter.1 hr3).2
    simpa using hr4

/-- C9 witness: the amended statement applied to the concrete two-row
history, picking the newest row out of the result. -/
theorem c9_witness :
    histRec 20 ∈ api_site_history [histRec 10, histRec 20] 100 ∧
    (100 : ℤ) - 86400 < (histRec 20).checked_at :=
  ⟨by decide,
   (c9_history_query [histRec 10, histRec 20] 100).2.2 (histRec 20) (by decide)⟩

/-- C10, counterexample: when the configuration cannot be read or
parsed, _load_config returns the nonempty default site list instead of
failing, so the process starts serving; and over an empty sites table
api_status reports overall_status operational, the very answer the
claim rules out. -/
theorem c10_counterexample :
    load_config LoadedYaml.failed = default_sites ∧
    default_sites ≠ [] ∧
    validate_ok (some []) = true ∧
    overall_status [] = "operational" := by
  decide

/-- C10, amended: a missing or malformed site list is not fatal: any
load or validation failure makes _load_config fall back to the default
three-site configuration and the process keeps serving; an empty (but
valid) site list passes validation and the status API then reports
overall_status operational. -/
theorem c10_fallback :
    load_config LoadedYaml.failed = default_sites ∧
    (∀ s : Option (List RawSite), validate_ok s = false →
      load_config (LoadedYaml.parsed s) = default_sites) ∧
    validate_ok (some []) = true ∧
    overall_status [] = "operational" := by
  refine ⟨rfl, ?_, rfl, rfl⟩
  intro s hs
  simp [load_config, hs]

/-- C10 witness: the amended statement applied to a document whose
sites section is absent, which fails validation. -/
theorem c10_witness :
    validate_ok none = false ∧
    load_config (LoadedYaml.parsed none) = default_sites :=
  ⟨rfl, c10_fallback.2.1 none rfl⟩

end StatusMonitor
